import Mathlib

/-!
Verification development for the voice-bot walmart-product-search repository.

Shallow embedding of the parts of the code the claims are about:
  * `src/database.py` — the relational business operations, modelled over an
    explicit `Database` state (a record of customer/order/item tables plus a
    flag saying whether `get_db_connection` succeeds).  Python exceptions that
    a function catches internally are folded into its fallback return value,
    exactly as the `except` branches do in the source.
  * `src/realtime/tools.py` — the tool definitions, the async handlers and the
    `tools` registration list.  A handler is modelled as a pure function from
    the database state and the per-session state to a `HandlerResult`:
    `.ok msg` for a normal string return, `.raised exc` for a Python exception
    that escapes the handler (e.g. `ValueError` from `int(...)`, or
    `FileNotFoundError` from `open(...)` on a missing template).
  * `src/product_search.py` — the search wrapper over the external LlamaIndex
    retriever; the retriever's reply is an explicit input of the model.
  * `src/app.py` — the event subscribers that manage the audio playback track
    identifier; `str(uuid4())` is modelled as a fresh-name counter.

Timestamps are modelled as integers counting days, so `timedelta(days=5)`
becomes `+ 5`; prices and relevance scores are modelled as integers (their
ordering, not their float representation, is what the claims are about).
-/

/-! ## Python primitives used by the code -/

/-- Value of a decimal digit string (most significant first). -/
def digitsToNat (ds : List Char) : Nat :=
  ds.foldl (fun n c => 10 * n + (c.toNat - 48)) 0

/-- Python's `int(s)` on a string: an optional minus sign followed by at
least one decimal digit parses; anything else raises `ValueError`, which is
`none` here.  (Structurally recursive so the kernel can evaluate it;
`String.toInt?` would do, but it is defined by well-founded recursion.) -/
def pyInt? (s : String) : Option Int :=
  match s.data with
  | [] => none
  | '-' :: ds =>
      if ds ≠ [] ∧ ds.all Char.isDigit then some (-(digitsToNat ds : Int)) else none
  | ds => if ds.all Char.isDigit then some (digitsToNat ds : Int) else none

/-- Python's `s.lower()` (character-wise, as a kernel-evaluable map). -/
def pyLower (s : String) : String := ⟨s.data.map Char.toLower⟩

/-! ## Data model of the relational store (tables used by src/database.py) -/

/-- A row of the `customers` table. -/
structure Customer where
  customer_id : Int
  name : String
  email : String
  phone : String
deriving Repr, DecidableEq

/-- A row of the `orders` table. -/
structure Order where
  order_id : Int
  customer_id : Int
  status : String
  order_date : Int
  estimated_delivery : Int
deriving Repr, DecidableEq

/-- A row of the `order_items` table. -/
structure OrderItem where
  item_id : Int
  order_id : Int
  product_name : String
  quantity : Int
  price : Int
deriving Repr, DecidableEq

/-- The relational store together with connectivity: `connOk = false` models
`get_db_connection()` returning `None` (connection failure). -/
structure Database where
  customers : List Customer
  orders : List Order
  order_items : List OrderItem
  connOk : Bool
deriving Repr, DecidableEq

/-! ## src/database.py -/

/-- `get_customer_by_id(customer_id)`: `SELECT * FROM customers WHERE
customer_id = %s`, returning `None` when the connection fails, the id does not
cast to an integer (the query errors and the `except` branch returns `None`),
or no row matches. -/
def get_customer_by_id (db : Database) (customer_id : String) : Option Customer :=
  if !db.connOk then none
  else
    match pyInt? customer_id with
    | none => none
    | some cid => db.customers.find? (fun c => c.customer_id = cid)

/-- Insertion step for `ORDER BY order_date DESC`. -/
def insertByDateDesc (o : Order) : List Order → List Order
  | [] => [o]
  | x :: xs => if o.order_date ≤ x.order_date then x :: insertByDateDesc o xs
               else o :: x :: xs

/-- `ORDER BY order_date DESC` on the rows the query matched. -/
def sortByDateDesc : List Order → List Order
  | [] => []
  | x :: xs => insertByDateDesc x (sortByDateDesc xs)

/-- `get_customer_orders(customer_id)`: `SELECT * FROM orders WHERE
customer_id = %s ORDER BY order_date DESC`; returns `[]` on connection failure
or query error (non-integer id). -/
def get_customer_orders (db : Database) (customer_id : String) : List Order :=
  if !db.connOk then []
  else
    match pyInt? customer_id with
    | none => []
    | some cid => sortByDateDesc (db.orders.filter (fun o => o.customer_id = cid))

/-- `get_order_details(order_id, customer_id)`: returns
`(estimated_delivery, status, order_date)`.  On connection failure or query
error (a non-integer id makes the parameter cast fail, landing in the `except`
branch) it returns `(now + 5 days, "Error", now)`; when no order matches both
ids it returns `(now + 5 days, "Not Found", now)`. -/
def get_order_details (db : Database) (order_id customer_id : String)
    (now : Int) : Int × String × Int :=
  if !db.connOk then (now + 5, "Error", now)
  else
    match pyInt? order_id, pyInt? customer_id with
    | some oid, some cid =>
        match db.orders.find? (fun o => o.order_id = oid ∧ o.customer_id = cid) with
        | some o => (o.estimated_delivery, o.status, o.order_date)
        | none => (now + 5, "Not Found", now)
    | _, _ => (now + 5, "Error", now)

/-- The allow-list `valid_fields = ["name", "email", "phone"]` of
`update_customer_info`. -/
def valid_fields : List String := ["name", "email", "phone"]

/-- Overwrite the allow-listed field of a customer row (the generated
`UPDATE customers SET <field> = %s`). -/
def setCustomerField (c : Customer) (field value : String) : Customer :=
  if field = "name" then { c with name := value }
  else if field = "email" then { c with email := value }
  else if field = "phone" then { c with phone := value }
  else c

/-- `update_customer_info(customer_id, field, value)`: returns the `bool`
result and the resulting store.  `False` (store unchanged) on connection
failure, on a non-integer `customer_id` (the `int(...)` cast raises and the
`except` branch returns `False`), and on a field outside the allow-list
(checked case-insensitively); otherwise runs the update and succeeds iff a row
matched (`cursor.rowcount > 0`). -/
def update_customer_info (db : Database) (customer_id field value : String) :
    Bool × Database :=
  if !db.connOk then (false, db)
  else
    match pyInt? customer_id with
    | none => (false, db)
    | some cid =>
        if !(valid_fields.contains (pyLower field)) then (false, db)
        else
          let matched := db.customers.any (fun c => c.customer_id = cid)
          let customers := db.customers.map (fun c =>
            if c.customer_id = cid then setCustomerField c (pyLower field) value else c)
          (matched, { db with customers := customers })

/-- `cancel_order(customer_id, order_id)`: verifies the order belongs to the
customer, then `UPDATE orders SET status = 'Cancelled' WHERE order_id = %s`;
returns `False` (store unchanged) on connection failure, query error
(non-integer id) or when the ownership check finds no row. -/
def cancel_order (db : Database) (customer_id order_id : String) :
    Bool × Database :=
  if !db.connOk then (false, db)
  else
    match pyInt? customer_id, pyInt? order_id with
    | some cid, some oid =>
        if !(db.orders.any (fun o => o.order_id = oid ∧ o.customer_id = cid)) then
          (false, db)
        else
          let orders := db.orders.map (fun o =>
            if o.order_id = oid then { o with status := "Cancelled" } else o)
          (db.orders.any (fun o => o.order_id = oid), { db with orders := orders })
    | _, _ => (false, db)

/-- The functions bound at top level of the module `src/database.py`. -/
def databaseModuleDefs : List String :=
  ["get_db_connection", "get_customer_by_id", "get_customer_orders",
   "get_order_details", "get_order_items", "update_order",
   "update_customer_info", "cancel_order"]

/-- The names `src/realtime/tools.py` imports with
`from database import (...)` (lines 5–14). -/
def toolsImportsFromDatabase : List String :=
  ["get_customer_by_id", "get_customer_orders", "get_order_details",
   "update_order", "cancel_order", "get_order_items", "add_item_to_order",
   "update_customer_info"]

/-! ## src/realtime/tools.py — session state and handlers -/

/-- The per-conversation `cl.user_session` slots the handlers read and write. -/
structure Session where
  customer_id : Option String
deriving Repr, DecidableEq

/-- Outcome of running a handler body: a returned string, or a Python
exception escaping the handler uncaught. -/
inductive HandlerResult where
  | ok (msg : String)
  | raised (exc : String)
deriving Repr, DecidableEq

/-- `identify_customer_handler(customer_id)`: first stores `customer_id` in
the session (`cl.user_session.set`), then looks the customer up; greets on a
hit, otherwise reports not found.  Returns the updated session and the
message. -/
def identify_customer_handler (db : Database) (sess : Session)
    (customer_id : String) : Session × String :=
  let sess' : Session := { sess with customer_id := some customer_id }
  match get_customer_by_id db customer_id with
  | some c => (sess', "Hello " ++ c.name ++ "! I can now help you with your orders.")
  | none => (sess', "Customer not found. Please check your customer ID.")

/-- The generator expression
`any(order['order_id'] == int(order_id) for order in orders)`:
on an empty list the body is never evaluated, otherwise `int(order_id)` is
evaluated (raising `ValueError` on a non-integer string) before any
comparison. -/
def ordersContain (orders : List Order) (order_id : String) :
    HandlerResult ⊕ Bool :=
  match orders with
  | [] => .inr false
  | _ =>
      match pyInt? order_id with
      | none => .inl (.raised "ValueError")
      | some oid => .inr (orders.any (fun o => o.order_id = oid))

/-- Result of `add_item_to_order_handler`, together with whether the
persistence layer's add operation was invoked. -/
structure AddItemOutcome where
  result : HandlerResult
  addCalled : Bool
deriving Repr, DecidableEq

/-- `add_item_to_order_handler(order_id, product_name, quantity, price)`:
asks for identification when no customer id is in the session; verifies the
order belongs to the customer via `get_customer_orders`, refusing otherwise;
then calls the persistence add operation and reports success or failure.

The persistence operation `add_item_to_order` that the handler calls is
imported from `database` but is not defined in `src/database.py`; per the
spec it is `addItem(orderId, name, qty, price) -> bool`, so its outcome is
the explicit boolean input `addResult`, and `addCalled` records whether the
handler reached the call. -/
def add_item_to_order_handler (db : Database) (sess : Session)
    (addResult : Bool) (order_id product_name : String)
    (quantity price : Int) : AddItemOutcome :=
  match sess.customer_id with
  | none => ⟨.ok "Please identify yourself first. What\x27s your customer ID?", false⟩
  | some cid =>
      let orders := get_customer_orders db cid
      match ordersContain orders order_id with
      | .inl r => ⟨r, false⟩
      | .inr true =>
          if addResult then
            ⟨.ok ("Added " ++ toString quantity ++ " " ++ product_name ++
                  " to order " ++ order_id ++ " at $" ++ toString price ++ " each."),
             true⟩
          else ⟨.ok "Failed to add item to order", true⟩
      | .inr false => ⟨.ok "This order doesn\x27t belong to you.", false⟩

/-- `cancel_order_handler(customer_id, order_id, reason)`: cancels via the
database operation; on failure returns the failure string, on success reads
`order_cancellation_template.html` — `open(...)` raises `FileNotFoundError`
when the template is absent (`templates` maps a file name to its content when
the file exists) — and returns the confirmation string.  The resulting store
is returned alongside. -/
def cancel_order_handler (db : Database) (templates : String → Option String)
    (customer_id order_id reason : String) : HandlerResult × Database :=
  let r := cancel_order db customer_id order_id
  if !r.1 then
    (.ok ("Failed to cancel order " ++ order_id ++
          ". Please check if the order exists and belongs to customer " ++
          customer_id ++ "."), r.2)
  else
    match templates "order_cancellation_template.html" with
    | none => (.raised "FileNotFoundError", r.2)
    | some _ =>
        (.ok ("Order " ++ order_id ++ " for customer " ++ customer_id ++
              " has been cancelled. Reason: " ++ reason ++
              ". A confirmation email has been sent."), r.2)

/-- Modelled from the spec: the tool-dispatch protocol layer (the
`RealtimeClient` in the `realtime` package, whose source is not under
`src/`) "propagates a HandlerError wrapping any exception the handler
raises, converting it to a user-facing message rather than crashing the
session". -/
def dispatch : HandlerResult → String
  | .ok msg => msg
  | .raised exc => "Tool error: " ++ exc

/-! ## src/realtime/tools.py — tool definitions and the registration list -/

/-- A tool definition as exposed to the model: the `"name"` key and the
`"required"` parameter names of its JSON schema. -/
structure ToolDef where
  name : String
  required : List String
deriving Repr, DecidableEq

/-- One tag per handler function defined in `src/realtime/tools.py`
(the handlers have heterogeneous signatures, so the registration list pairs a
definition with the handler it names). -/
inductive HandlerTag where
  | identifyCustomer
  | productSearch
  | checkOrderStatus
  | processReturn
  | getProductInfo
  | updateAccountInfo
  | cancelOrder
  | scheduleCallback
  | getCustomerInfo
  | getOrderItem
  | updateOrderItem
  | addItemToOrder
  | listOrderItems
deriving Repr, DecidableEq

def identify_customer_def : ToolDef := ⟨"identify_customer", ["customer_id"]⟩
def product_search_def : ToolDef := ⟨"product_search", ["query"]⟩
def check_order_status_def : ToolDef := ⟨"check_order_status", ["customer_id", "order_id"]⟩
def process_return_def : ToolDef := ⟨"process_return", ["customer_id", "order_id", "reason"]⟩
def get_product_info_def : ToolDef := ⟨"get_product_info", ["customer_id", "product_id"]⟩
def update_account_info_def : ToolDef := ⟨"update_account_info", ["customer_id", "field", "value"]⟩
def cancel_order_def : ToolDef := ⟨"cancel_order", ["customer_id", "order_id", "reason"]⟩
def schedule_callback_def : ToolDef := ⟨"schedule_callback", ["customer_id", "callback_time"]⟩
def get_customer_info_def : ToolDef := ⟨"get_customer_info", ["customer_id"]⟩
def get_order_item_def : ToolDef := ⟨"get_order_item", ["item_id"]⟩
def update_order_item_def : ToolDef := ⟨"update_order_item", ["customer_id", "order_id", "item_id"]⟩
def add_item_to_order_def : ToolDef := ⟨"add_item_to_order", ["order_id", "product_name", "quantity", "price"]⟩
def list_order_items_def : ToolDef := ⟨"list_order_items", ["customer_id", "order_id"]⟩

/-- The `tools` list at the bottom of `src/realtime/tools.py` — the exact
(definition, handler) pairs registered by `setup_openai_realtime` in
`src/app.py` via `openai_realtime.add_tool(tool_def, tool_handler)`. -/
def tools : List (ToolDef × HandlerTag) :=
  [(identify_customer_def, .identifyCustomer),
   (get_customer_info_def, .getCustomerInfo),
   (check_order_status_def, .checkOrderStatus),
   (process_return_def, .processReturn),
   (get_product_info_def, .getProductInfo),
   (update_account_info_def, .updateAccountInfo),
   (cancel_order_def, .cancelOrder),
   (schedule_callback_def, .scheduleCallback),
   (update_order_item_def, .updateOrderItem),
   (get_order_item_def, .getOrderItem),
   (product_search_def, .productSearch),
   (add_item_to_order_def, .addItemToOrder)]

/-- Dispatch of a model function-call by name against the registered tool
set: the handler bound to the first registered definition with that name,
`none` when no registered tool has the name. -/
def registryLookup (name : String) : Option HandlerTag :=
  (tools.find? (fun t => t.1.name = name)).map (fun t => t.2)

/-! ## src/product_search.py -/

/-- The metadata of a node returned by the external LlamaIndex retriever —
`node.metadata.get(key, default)` yields the default for an absent key, so
each key is an `Option`. -/
structure NodeMetadata where
  name : Option String
  category : Option String
  brand : Option String
  price : Option Int
  size : Option String
  department : Option String
  subcategory : Option String
  breadcrumbs : Option String
  sku : Option String
  url : Option String
deriving Repr, DecidableEq

/-- One result of `self.retriever.retrieve(query)`: a node plus its relevance
score. -/
structure RetrievalResult where
  metadata : NodeMetadata
  score : Int
deriving Repr, DecidableEq

/-- A product record built by `ProductRetriever.search_products`. -/
structure Product where
  product_name : String
  score : Int
  category : String
  brand : String
  price : Int
  size : String
  department : String
  subcategory : String
  breadcrumbs : String
  sku : String
  url : String
deriving Repr, DecidableEq

/-- The record construction inside the `for result in results` loop. -/
def productOfResult (r : RetrievalResult) : Product :=
  { product_name := r.metadata.name.getD ""
    score := r.score
    category := r.metadata.category.getD ""
    brand := r.metadata.brand.getD ""
    price := r.metadata.price.getD 0
    size := r.metadata.size.getD ""
    department := r.metadata.department.getD ""
    subcategory := r.metadata.subcategory.getD ""
    breadcrumbs := r.metadata.breadcrumbs.getD ""
    sku := r.metadata.sku.getD ""
    url := r.metadata.url.getD "" }

/-- `similarity_top_k=5`: the fixed top-k the retriever is created with in
`ProductRetriever.__init__`. -/
def similarity_top_k : Nat := 5

/-- `ProductRetriever.search_products(query)`: maps the retriever's reply to
product records; an exception from the retriever (`retrieval = .inl e`) is
caught and yields `[]`.  The reply of the external retriever is an explicit
input. -/
def ProductRetriever.search_products
    (retrieval : String ⊕ List RetrievalResult) : List Product :=
  match retrieval with
  | .inl _ => []
  | .inr results => results.map productOfResult

/-- The module-level `search_products(query_text, top_k=5)`: delegates to
`product_retriever.search_products(query_text)` — the `top_k` argument is not
passed on. -/
def search_products (query_text : String) (top_k : Nat)
    (retrieval : String ⊕ List RetrievalResult) : List Product :=
  ProductRetriever.search_products retrieval

/-! ## src/app.py — event subscribers and the playback track identifier -/

/-- The events `setup_openai_realtime` subscribes to that touch audio
playback: a `conversation.updated` delta carrying audio, a
`conversation.updated` delta carrying function-call arguments, and
`conversation.interrupted`. -/
inductive AppEvent where
  | audioDelta (audio : String)
  | argumentsDelta (arguments : String)
  | interrupted
deriving Repr, DecidableEq

/-- Per-session state of the subscribers: the current `track_id` slot of
`cl.user_session`, with `str(uuid4())` modelled by a fresh-name counter —
`nextFresh` is the next never-used identifier, so well-formed states keep
`track_id < nextFresh`. -/
structure AppState where
  track_id : Nat
  nextFresh : Nat
deriving Repr, DecidableEq

/-- What the subscribers emit to the UI: an audio chunk tagged with the track
identifier current at send time (`handle_conversation_updated`), or the
audio-interrupt signal (`handle_conversation_interrupt`). -/
inductive Emission where
  | audioChunk (track : Nat) (audio : String)
  | audioInterrupt
deriving Repr, DecidableEq

/-- One subscriber invocation.  `handle_conversation_updated` sends the audio
chunk tagged with the current `track_id` (argument deltas are ignored);
`handle_conversation_interrupt` first replaces `track_id` with a fresh
identifier, then sends the audio-interrupt signal. -/
def stepApp (st : AppState) : AppEvent → AppState × List Emission
  | .audioDelta audio => (st, [.audioChunk st.track_id audio])
  | .argumentsDelta _ => (st, [])
  | .interrupted =>
      ({ track_id := st.nextFresh, nextFresh := st.nextFresh + 1 },
       [.audioInterrupt])

/-- Process a sequence of events, concatenating the emissions in order. -/
def runApp (st : AppState) : List AppEvent → AppState × List Emission
  | [] => (st, [])
  | e :: es =>
      let r := stepApp st e
      let r' := runApp r.1 es
      (r'.1, r.2 ++ r'.2)

/-- A state whose `track_id` was produced by the fresh-name source. -/
def AppState.wf (st : AppState) : Prop := st.track_id < st.nextFresh

/-! ## Concrete fixtures used by witnesses and counterexamples -/

/-- A small concrete store: customers 42 and 7; order 1 belongs to customer 7
and order 2 to customer 42. -/
def demoDb : Database :=
  { customers := [⟨42, "Ava", "ava@example.com", "555-0100"⟩,
                  ⟨7, "Bob", "bob@example.com", "555-0101"⟩]
    orders := [⟨1, 7, "Processing", 10, 15⟩, ⟨2, 42, "Shipped", 11, 16⟩]
    order_items := []
    connOk := true }

/-- A concrete reply of the external retriever: five hits (its configured
`similarity_top_k`), scores strictly descending. -/
def demoRetrieval : List RetrievalResult :=
  [⟨⟨some "Whole Milk", some "Dairy", some "GreatValue", some 3, some "1 gal",
     some "Grocery", some "Milk", none, none, none⟩, 95⟩,
   ⟨⟨some "2% Milk", some "Dairy", some "GreatValue", some 3, some "1 gal",
     some "Grocery", some "Milk", none, none, none⟩, 90⟩,
   ⟨⟨some "Almond Milk", some "Dairy", some "Silk", some 4, some "64 oz",
     some "Grocery", some "Milk", none, none, none⟩, 80⟩,
   ⟨⟨some "Oat Milk", some "Dairy", some "Oatly", some 5, some "64 oz",
     some "Grocery", some "Milk", none, none, none⟩, 70⟩,
   ⟨⟨some "Skim Milk", some "Dairy", some "GreatValue", some 3, some "1 gal",
     some "Grocery", some "Milk", none, none, none⟩, 60⟩]

/-! ## Theorems -/

/-- C1: the spec's business-operations surface provides
`addItem(orderId, name, qty, price) -> bool` and `src/realtime/tools.py`
imports `add_item_to_order` from the database module — but no function of
that name is defined in `src/database.py`, so the `from database import
add_item_to_order` line raises `ImportError` and the add operation the
handler would call does not exist.  The theorem records the divergence:
the name is imported but absent from the module's definitions. -/
theorem C1_add_item_to_order_missing :
    "add_item_to_order" ∈ toolsImportsFromDatabase ∧
    "add_item_to_order" ∉ databaseModuleDefs := by decide

/-- C10: the `tools` list registered at session setup consists of exactly the
12 (definition, handler) pairs, in the source's order; `list_order_items` is
not among them even though `list_order_items_def` (with that name field) and
its handler exist in the module, so dispatching a `list_order_items` call
finds no registered handler. -/
theorem C10_registered_tools :
    tools.length = 12 ∧
    tools.map (fun t => t.1.name) =
      ["identify_customer", "get_customer_info", "check_order_status",
       "process_return", "get_product_info", "update_account_info",
       "cancel_order", "schedule_callback", "update_order_item",
       "get_order_item", "product_search", "add_item_to_order"] ∧
    list_order_items_def.name = "list_order_items" ∧
    "list_order_items" ∉ tools.map (fun t => t.1.name) ∧
    HandlerTag.listOrderItems ∉ tools.map (fun t => t.2) ∧
    registryLookup "list_order_items" = none := by decide

/-- C5: `identify_customer` is a registered tool; invoking its handler with
customer id "42" when customer 42 exists returns the greeting containing that
customer's name, and invoking it with a nonexistent id such as "999" returns
the "not found" string. -/
theorem C5_identify_customer (db : Database) (sess : Session) (c : Customer)
    (h42 : get_customer_by_id db "42" = some c)
    (h999 : get_customer_by_id db "999" = none) :
    registryLookup "identify_customer" = some HandlerTag.identifyCustomer ∧
    (identify_customer_handler db sess "42").2 =
      "Hello " ++ c.name ++ "! I can now help you with your orders." ∧
    (∃ pre post, (identify_customer_handler db sess "42").2 = pre ++ c.name ++ post) ∧
    (identify_customer_handler db sess "999").2 =
      "Customer not found. Please check your customer ID." := by
  refine ⟨by decide, ?_, ?_, ?_⟩
  · simp [identify_customer_handler, h42]
  · exact ⟨"Hello ", "! I can now help you with your orders.",
      by simp [identify_customer_handler, h42]⟩
  · simp [identify_customer_handler, h999]

/-- Witness for C5 on the concrete store `demoDb` (customer 42 is "Ava",
customer 999 does not exist). -/
theorem C5_witness :
    (identify_customer_handler demoDb ⟨none⟩ "42").2 =
      "Hello Ava! I can now help you with your orders." ∧
    (identify_customer_handler demoDb ⟨none⟩ "999").2 =
      "Customer not found. Please check your customer ID." := by
  have h := C5_identify_customer demoDb ⟨none⟩
    ⟨42, "Ava", "ava@example.com", "555-0100"⟩ (by decide) (by decide)
  exact ⟨h.2.1, h.2.2.2⟩

/-- C9: `identify_customer_handler` stores the given customer id in the
session before looking the customer up, so the session changes even when the
lookup fails and the "not found" string is returned; a subsequent
`add_item_to_order` ownership check then runs against the new (possibly
nonexistent) id — a nonexistent customer has no orders, so every add is
refused, regardless of who was identified before. -/
theorem C9_identify_sets_session_before_lookup (db : Database) (sess : Session)
    (cid : String) :
    (identify_customer_handler db sess cid).1.customer_id = some cid ∧
    (get_customer_by_id db cid = none →
      (identify_customer_handler db sess cid).2 =
        "Customer not found. Please check your customer ID.") ∧
    (get_customer_orders db cid = [] →
      ∀ (addResult : Bool) (order_id product_name : String) (quantity price : Int),
        add_item_to_order_handler db (identify_customer_handler db sess cid).1
            addResult order_id product_name quantity price =
          ⟨.ok "This order doesn\x27t belong to you.", false⟩) := by
  refine ⟨?_, ?_, ?_⟩
  · cases h : get_customer_by_id db cid <;>
      simp [identify_customer_handler, h]
  · intro h
    simp [identify_customer_handler, h]
  · intro h addResult order_id product_name quantity price
    have hs : (identify_customer_handler db sess cid).1.customer_id = some cid := by
      cases hq : get_customer_by_id db cid <;>
        simp [identify_customer_handler, hq]
    simp [add_item_to_order_handler, hs, h, ordersContain]

/-- Witness for C9: the session had customer "7" (owner of order 1); after
`identify_customer("999")` (nonexistent) the session points at "999" and
adding to order 1 is refused against "999", not "7". -/
theorem C9_witness :
    (identify_customer_handler demoDb ⟨some "7"⟩ "999").1.customer_id = some "999" ∧
    add_item_to_order_handler demoDb (identify_customer_handler demoDb ⟨some "7"⟩ "999").1
        true "1" "Whole Milk" 2 3 =
      ⟨.ok "This order doesn\x27t belong to you.", false⟩ := by
  have h := C9_identify_sets_session_before_lookup demoDb ⟨some "7"⟩ "999"
  exact ⟨h.1, h.2.2 (by decide) true "1" "Whole Milk" 2 3⟩

/-- C2: with the session's customer id set, `add_item_to_order_handler`
refuses any order id that does not appear among that customer's orders (as
returned by `get_customer_orders`) without invoking the persistence add
operation; and the add operation is invoked only for an order id that does
belong to the customer. -/
theorem C2_add_item_ownership_guard (db : Database) (sess : Session)
    (cid : String) (addResult : Bool) (order_id product_name : String)
    (quantity price : Int) (hcid : sess.customer_id = some cid) :
    (∀ oid : Int, pyInt? order_id = some oid →
      oid ∉ (get_customer_orders db cid).map Order.order_id →
      add_item_to_order_handler db sess addResult order_id product_name
          quantity price =
        ⟨.ok "This order doesn\x27t belong to you.", false⟩) ∧
    ((add_item_to_order_handler db sess addResult order_id product_name
        quantity price).addCalled = true →
      ∃ oid : Int, pyInt? order_id = some oid ∧
        oid ∈ (get_customer_orders db cid).map Order.order_id) := by
  constructor
  · intro oid hoid hmem
    have hany : (get_customer_orders db cid).any
        (fun o => o.order_id = oid) = false := by
      rw [List.any_eq_false]
      intro o ho
      simp only [decide_eq_true_eq]
      intro hcontra
      exact hmem (List.mem_map.mpr ⟨o, ho, hcontra⟩)
    cases horders : get_customer_orders db cid with
    | nil => simp [add_item_to_order_handler, hcid, horders, ordersContain]
    | cons o os =>
        rw [horders] at hany
        simp [add_item_to_order_handler, hcid, horders, ordersContain, hoid, hany]
  · intro hcalled
    simp only [add_item_to_order_handler, hcid] at hcalled
    cases horders : get_customer_orders db cid with
    | nil =>
        rw [horders] at hcalled
        simp [ordersContain] at hcalled
    | cons o os =>
        rw [horders] at hcalled
        cases hoid : pyInt? order_id with
        | none => simp [ordersContain, hoid] at hcalled
        | some oid =>
            refine ⟨oid, rfl, ?_⟩
            cases hany : (o :: os).any (fun x => x.order_id = oid) with
            | false => simp [ordersContain, hoid, hany] at hcalled
            | true =>
                obtain ⟨x, hx, hxe⟩ := List.any_eq_true.mp hany
                simp only [decide_eq_true_eq] at hxe
                exact List.mem_map.mpr ⟨x, hx, hxe⟩

/-- Witness for C2 on `demoDb`: the session customer is "7" (owner of order 1
only); adding to order 99 is refused and the add operation is not called. -/
theorem C2_witness :
    add_item_to_order_handler demoDb ⟨some "7"⟩ true "99" "Whole Milk" 2 3 =
      ⟨.ok "This order doesn\x27t belong to you.", false⟩ :=
  (C2_add_item_ownership_guard demoDb ⟨some "7"⟩ "7" true "99" "Whole Milk" 2 3
    rfl).1 99 (by decide) (by decide)

/-- C6: `update_customer_info` succeeds only for a field in the allow-list
`{name, email, phone}` (compared after lowercasing): any other field yields
`False` with the store unchanged, and a `True` result implies the lowercased
field was in the allow-list. -/
theorem C6_update_field_allowlist (db : Database)
    (customer_id field value : String) :
    (pyLower field ∉ valid_fields →
      update_customer_info db customer_id field value = (false, db)) ∧
    ((update_customer_info db customer_id field value).1 = true →
      pyLower field ∈ valid_fields) := by
  constructor
  · intro hfield
    rw [update_customer_info]
    cases hconn : db.connOk with
    | false => simp
    | true => cases hcid : pyInt? customer_id <;> simp [hfield]
  · intro hsucc
    by_cases hm : pyLower field ∈ valid_fields
    · exact hm
    · exfalso
      rw [update_customer_info] at hsucc
      cases hconn : db.connOk with
      | false => rw [hconn] at hsucc; simp at hsucc
      | true =>
          rw [hconn] at hsucc
          cases hcid : pyInt? customer_id with
          | none => rw [hcid] at hsucc; simp at hsucc
          | some cid => rw [hcid] at hsucc; simp [hm] at hsucc

/-- Witness for C6: the field "Address" is outside the allow-list, so the
update fails and the store is unchanged. -/
theorem C6_witness :
    update_customer_info demoDb "42" "Address" "1 Main St" = (false, demoDb) :=
  (C6_update_field_allowlist demoDb "42" "Address" "1 Main St").1 (by decide)

/-- C7: `get_order_details` always returns a triple and never raises — every
caught failure lands in a defined fallback: connection failure or a query
error (an id that does not cast to an integer) yields
`(now + 5 days, "Error", now)`; a query that matches no order with both ids
yields `(now + 5 days, "Not Found", now)`; a matching order yields its own
`(estimated_delivery, status, order_date)`. -/
theorem C7_order_details_fallbacks (db : Database)
    (order_id customer_id : String) (now : Int) :
    (db.connOk = false →
      get_order_details db order_id customer_id now = (now + 5, "Error", now)) ∧
    ((pyInt? order_id = none ∨ pyInt? customer_id = none) →
      get_order_details db order_id customer_id now = (now + 5, "Error", now)) ∧
    (∀ oid cid : Int, db.connOk = true →
      pyInt? order_id = some oid → pyInt? customer_id = some cid →
      db.orders.find? (fun o => o.order_id = oid ∧ o.customer_id = cid) = none →
      get_order_details db order_id customer_id now = (now + 5, "Not Found", now)) ∧
    (∀ (oid cid : Int) (o : Order), db.connOk = true →
      pyInt? order_id = some oid → pyInt? customer_id = some cid →
      db.orders.find? (fun x => x.order_id = oid ∧ x.customer_id = cid) = some o →
      get_order_details db order_id customer_id now =
        (o.estimated_delivery, o.status, o.order_date)) := by
  refine ⟨?_, ?_, ?_, ?_⟩
  · intro hconn
    simp [get_order_details, hconn]
  · intro hparse
    rw [get_order_details]
    cases hconn : db.connOk with
    | false => simp
    | true =>
        rcases hparse with h | h <;>
          · cases h1 : pyInt? order_id <;> cases h2 : pyInt? customer_id <;>
              simp_all
  · intro oid cid hconn hoid hcid hfind
    simp only [Bool.decide_and] at hfind
    simp [get_order_details, hconn, hoid, hcid, hfind]
  · intro oid cid o hconn hoid hcid hfind
    simp only [Bool.decide_and] at hfind
    simp [get_order_details, hconn, hoid, hcid, hfind]

/-- Witness for C7 on `demoDb`: order 99 exists for no customer, so the
lookup falls back to `(now + 5, "Not Found", now)` at `now = 100`. -/
theorem C7_witness :
    get_order_details demoDb "99" "7" 100 = (105, "Not Found", 100) :=
  (C7_order_details_fallbacks demoDb "99" "7" 100).2.2.1 99 7 rfl (by decide)
    (by decide) (by decide)

/-- C3 counterexample: the module-level `search_products` never passes its
`topK` argument on — the retriever is fixed at `similarity_top_k = 5` — so a
query with `topK = 3` against a retriever reply of five hits returns five
records, violating "at most topK". -/
theorem C3_counterexample :
    demoRetrieval.length = similarity_top_k ∧
    (search_products "milk" 3 (.inr demoRetrieval)).length = 5 ∧
    ¬ ((search_products "milk" 3 (.inr demoRetrieval)).length ≤ 3) := by
  refine ⟨by decide, ?_, ?_⟩ <;>
    simp [search_products, ProductRetriever.search_products, demoRetrieval]

/-- C3 amended: for every query text and topK, the search returns the
retriever's hits converted to records one for one (so at most 5, the fixed
`similarity_top_k`, whenever the retriever honours its configured size —
regardless of the `topK` argument, which is ignored); each record carries the
fields product_name, brand, category, price, size, department, subcategory
and score; and the list is in descending score order whenever the retriever's
reply is. -/
theorem C3_amended_search_products (query_text : String) (top_k : Nat)
    (results : List RetrievalResult)
    (hlen : results.length ≤ similarity_top_k)
    (hsorted : results.Pairwise (fun a b => b.score ≤ a.score)) :
    search_products query_text top_k (.inr results) = results.map productOfResult ∧
    (search_products query_text top_k (.inr results)).length ≤ similarity_top_k ∧
    (search_products query_text top_k (.inr results)).Pairwise
      (fun p q => q.score ≤ p.score) := by
  refine ⟨rfl, ?_, ?_⟩
  · simpa [search_products, ProductRetriever.search_products] using hlen
  · simp only [search_products, ProductRetriever.search_products, List.pairwise_map]
    exact hsorted

/-- Witness for the amended C3 on the concrete five-hit retriever reply. -/
theorem C3_amended_witness :
    search_products "milk" 5 (.inr demoRetrieval) = demoRetrieval.map productOfResult ∧
    (search_products "milk" 5 (.inr demoRetrieval)).length ≤ similarity_top_k ∧
    (search_products "milk" 5 (.inr demoRetrieval)).Pairwise
      (fun p q => q.score ≤ p.score) :=
  C3_amended_search_products "milk" 5 demoRetrieval (by decide) (by decide)

/-- C4 counterexample: `add_item_to_order` is a registered tool, yet its
handler does not return a string for every input — with the session customer
set to "7" (who has orders) and the non-numeric order id "abc", the
`int(order_id)` conversion raises an uncaught `ValueError` inside the
handler. -/
theorem C4_counterexample :
    HandlerTag.addItemToOrder ∈ tools.map (fun t => t.2) ∧
    add_item_to_order_handler demoDb ⟨some "7"⟩ true "abc" "Whole Milk" 2 3 =
      ⟨.raised "ValueError", false⟩ := by
  constructor
  · decide
  · simp [add_item_to_order_handler, ordersContain, demoDb, get_customer_orders,
      pyInt?, sortByDateDesc, insertByDateDesc]

/-- C4 amended: a single tool invocation yields a textual result to the model
because the dispatch layer (modelled from the spec; its source is not under
`src/`) converts handler exceptions to a user-facing message — but the
registered handlers themselves do not return a string for every input:
`add_item_to_order_handler` raises `ValueError` exactly when the session
customer is set, has at least one order, and the order id is not numeric, and
`cancel_order_handler` raises `FileNotFoundError` exactly when the
cancellation succeeded but the HTML template file is missing. -/
theorem C4_amended_dispatch_totality (db : Database) (sess : Session)
    (templates : String → Option String) (addResult : Bool)
    (order_id product_name customer_id reason : String)
    (quantity price : Int) :
    ((add_item_to_order_handler db sess addResult order_id product_name
        quantity price).result = .raised "ValueError" ↔
      ∃ cid, sess.customer_id = some cid ∧
        get_customer_orders db cid ≠ [] ∧ pyInt? order_id = none) ∧
    ((cancel_order_handler db templates customer_id order_id reason).1 =
        .raised "FileNotFoundError" ↔
      (cancel_order db customer_id order_id).1 = true ∧
        templates "order_cancellation_template.html" = none) ∧
    (dispatch (add_item_to_order_handler db sess addResult order_id
        product_name quantity price).result =
      match (add_item_to_order_handler db sess addResult order_id
          product_name quantity price).result with
      | .ok msg => msg
      | .raised exc => "Tool error: " ++ exc) := by
  refine ⟨?_, ?_, rfl⟩
  · constructor
    · intro hr
      cases hcid : sess.customer_id with
      | none => simp [add_item_to_order_handler, hcid] at hr
      | some cid =>
          simp only [add_item_to_order_handler, hcid] at hr
          refine ⟨cid, rfl, ?_⟩
          cases horders : get_customer_orders db cid with
          | nil =>
              rw [horders] at hr
              simp [ordersContain] at hr
          | cons o os =>
              rw [horders] at hr
              refine ⟨by simp, ?_⟩
              cases hoid : pyInt? order_id with
              | none => rfl
              | some oid =>
                  exfalso
                  cases hany : (o :: os).any (fun x => x.order_id = oid) with
                  | false => simp [ordersContain, hoid, hany] at hr
                  | true =>
                      cases addResult <;>
                        simp [ordersContain, hoid, hany] at hr
    · rintro ⟨cid, hcid, horders, hoid⟩
      cases h : get_customer_orders db cid with
      | nil => exact absurd h horders
      | cons o os =>
          simp [add_item_to_order_handler, hcid, h, ordersContain, hoid]
  · rw [cancel_order_handler]
    cases hsucc : (cancel_order db customer_id order_id).1 with
    | false => simp [hsucc]
    | true =>
        cases htpl : templates "order_cancellation_template.html" with
        | none => simp [hsucc, htpl]
        | some tpl => simp [hsucc, htpl]

/-- Bounds maintained by running the subscribers: well-formedness is
preserved, `track_id` and `nextFresh` never decrease, and every emitted audio
chunk is tagged with an identifier between the starting `track_id` and the
final `nextFresh`. -/
theorem runApp_bounds (es : List AppEvent) (st : AppState) (h : st.wf) :
    (runApp st es).1.wf ∧
    st.track_id ≤ (runApp st es).1.track_id ∧
    st.nextFresh ≤ (runApp st es).1.nextFresh ∧
    ∀ track audio, Emission.audioChunk track audio ∈ (runApp st es).2 →
      st.track_id ≤ track ∧ track < (runApp st es).1.nextFresh := by
  induction es generalizing st with
  | nil =>
      exact ⟨h, le_refl _, le_refl _, by intro track audio hmem; simp [runApp] at hmem⟩
  | cons e es ih =>
      cases e with
      | audioDelta audio =>
          obtain ⟨hwf, htr, hfr, hch⟩ := ih st h
          refine ⟨hwf, htr, hfr, ?_⟩
          intro track a hmem
          simp only [runApp, stepApp, List.cons_append, List.nil_append,
            List.mem_cons] at hmem
          rcases hmem with heq | hmem
          · cases heq
            exact ⟨le_refl _, lt_of_lt_of_le h hfr⟩
          · exact hch track a hmem
      | argumentsDelta args =>
          obtain ⟨hwf, htr, hfr, hch⟩ := ih st h
          refine ⟨hwf, htr, hfr, ?_⟩
          intro track a hmem
          simp only [runApp, stepApp, List.nil_append] at hmem
          exact hch track a hmem
      | interrupted =>
          have h1 : (AppState.mk st.nextFresh (st.nextFresh + 1)).wf :=
            Nat.lt_succ_self _
          obtain ⟨hwf, htr, hfr, hch⟩ := ih _ h1
          refine ⟨hwf, le_trans (le_of_lt h) htr, le_trans (Nat.le_succ _) hfr, ?_⟩
          intro track a hmem
          simp only [runApp, stepApp, List.cons_append, List.nil_append,
            List.mem_cons] at hmem
          rcases hmem with heq | hmem
          · cases heq
          · have := hch track a hmem
            exact ⟨le_trans (le_of_lt h) this.1, this.2⟩

/-- While no interruption occurs, the track identifier is stable and every
chunk is tagged with it. -/
theorem runApp_no_interrupt (es : List AppEvent) (st : AppState)
    (h : AppEvent.interrupted ∉ es) :
    (runApp st es).1.track_id = st.track_id ∧
    ∀ track audio, Emission.audioChunk track audio ∈ (runApp st es).2 →
      track = st.track_id := by
  induction es generalizing st with
  | nil => exact ⟨rfl, by intro track audio hmem; simp [runApp] at hmem⟩
  | cons e es ih =>
      have he : e ≠ AppEvent.interrupted := fun hc => h (hc ▸ List.mem_cons_self e es)
      have hes : AppEvent.interrupted ∉ es := fun hc => h (List.mem_cons_of_mem e hc)
      cases e with
      | audioDelta audio =>
          obtain ⟨hst, hch⟩ := ih st hes
          refine ⟨hst, ?_⟩
          intro track a hmem
          simp only [runApp, stepApp, List.cons_append, List.nil_append,
            List.mem_cons] at hmem
          rcases hmem with heq | hmem
          · cases heq; rfl
          · exact hch track a hmem
      | argumentsDelta args =>
          obtain ⟨hst, hch⟩ := ih st hes
          refine ⟨hst, ?_⟩
          intro track a hmem
          simp only [runApp, stepApp, List.nil_append] at hmem
          exact hch track a hmem
      | interrupted => exact absurd rfl he

/-- C8: processing `conversation.interrupted` replaces the session's track
identifier with a fresh one distinct from the identifier current before the
event, emits exactly the audio-interrupt signal (with the replacement already
in effect), and every audio chunk emitted by the subscribers afterwards is
tagged with an identifier different from the old one — when no further
interruption occurs, with exactly the new one. -/
theorem C8_interrupt_fresh_track (st : AppState) (h : st.wf)
    (before after : List AppEvent) :
    (stepApp (runApp st before).1 AppEvent.interrupted).1.track_id ≠
      (runApp st before).1.track_id ∧
    (stepApp (runApp st before).1 AppEvent.interrupted).2 =
      [Emission.audioInterrupt] ∧
    (∀ track audio,
      Emission.audioChunk track audio ∈
        (runApp (stepApp (runApp st before).1 AppEvent.interrupted).1 after).2 →
      track ≠ (runApp st before).1.track_id) ∧
    (AppEvent.interrupted ∉ after →
      ∀ track audio,
        Emission.audioChunk track audio ∈
          (runApp (stepApp (runApp st before).1 AppEvent.interrupted).1 after).2 →
        track = (stepApp (runApp st before).1 AppEvent.interrupted).1.track_id) := by
  obtain ⟨hwf1, -, -, -⟩ := runApp_bounds before st h
  have hne : (runApp st before).1.nextFresh ≠ (runApp st before).1.track_id :=
    Nat.ne_of_gt hwf1
  have hwf2 : (stepApp (runApp st before).1 AppEvent.interrupted).1.wf :=
    Nat.lt_succ_self _
  refine ⟨hne, rfl, ?_, ?_⟩
  · intro track audio hmem
    obtain ⟨-, -, -, hch⟩ := runApp_bounds after _ hwf2
    have := (hch track audio hmem).1
    simp only [stepApp] at this
    exact Nat.ne_of_gt (lt_of_lt_of_le hwf1 this)
  · intro hni track audio hmem
    exact (runApp_no_interrupt after _ hni).2 track audio hmem

/-- Witness for C8: from `track_id = 0`, an audio delta, an interruption, then
another audio delta — the new identifier is 1 ≠ 0 and the post-interrupt
chunk is tagged 1, not 0. -/
theorem C8_witness :
    (stepApp (runApp ⟨0, 1⟩ [AppEvent.audioDelta "a"]).1 AppEvent.interrupted).1.track_id ≠
      (runApp ⟨0, 1⟩ [AppEvent.audioDelta "a"]).1.track_id ∧
    (1 : Nat) ≠ (runApp ⟨0, 1⟩ [AppEvent.audioDelta "a"]).1.track_id ∧
    (1 : Nat) =
      (stepApp (runApp ⟨0, 1⟩ [AppEvent.audioDelta "a"]).1 AppEvent.interrupted).1.track_id := by
  have h := C8_interrupt_fresh_track ⟨0, 1⟩ Nat.zero_lt_one [AppEvent.audioDelta "a"]
    [AppEvent.audioDelta "b"]
  exact ⟨h.1, h.2.2.1 1 "b" (by decide), h.2.2.2 (by decide) 1 "b" (by decide)⟩
